import Mathlib

/-!
Shallow embedding of the Mataresit Python API client example
(`docs/examples/python/basic_usage.py`): the request executor
`MataresitAPI._request`, the retry wrapper
`AdvancedMataresitAPI._request_with_retry`, the polling loop
`AdvancedMataresitAPI.wait_for_processing`, and the batch uploader
`AdvancedMataresitAPI.bulk_upload_with_progress`, together with theorems
settling the specified properties of each.

Modelling conventions: parsed JSON response bodies are values of an
inductive `Json` type; HTTP traffic is abstracted into a `RequestOutcome`
per attempt (either a response with a status code and a parsed JSON body,
or a transport-level failure wrapping `requests.RequestException`);
raising `MataresitAPIError` is `Except.error`; `time.sleep` calls are
recorded rather than performed, and wall-clock time advances only by the
recorded sleeps.
-/

/-- Parsed JSON values, the result of `response.json()`. -/
inductive Json where
  | null : Json
  | bool (b : Bool) : Json
  | num (n : Int) : Json
  | str (s : String) : Json
  | arr (elems : List Json) : Json
  | obj (fields : List (String × Json)) : Json

/-- Lookup of a key in the field list of a JSON object (Python `dict` access). -/
def lookupField : List (String × Json) → String → Option Json
  | [], _ => none
  | (k, v) :: rest, key => if k = key then some v else lookupField rest key

/-- Python `dict.get(key)` on a JSON value: `none` when the value is not an
object or the key is absent. -/
def Json.get : Json → String → Option Json
  | Json.obj fields, key => lookupField fields key
  | _, _ => none

/-- Python `==` comparison of a JSON value against a string literal:
true exactly when the value is that string. -/
def Json.isStr : Json → String → Bool
  | Json.str t, s => t = s
  | _, _ => false

/-- The exception `MataresitAPIError(message, status_code, error_code)`.
The message is a `Json` value because `data.get('message', ...)` may return
any JSON value; errors raised with a literal string carry `Json.str`. -/
structure MataresitAPIError where
  message : Json
  status_code : Option Nat
  error_code : Option Json

/-- What one HTTP attempt produced, as seen by `_request`: either a response
whose body parsed as JSON, or a `requests.RequestException` (connection
error, timeout) carrying its text. -/
inductive RequestOutcome where
  | response (status : Nat) (body : Json) : RequestOutcome
  | transportError (errText : String) : RequestOutcome

/-- The `requests` library's `response.ok`: true iff the status code is
below 400. -/
def responseOk (status : Nat) : Bool := status < 400

/-- Embedding of `MataresitAPI._request`: parse the body, return it whole on
a successful response; on a non-success response raise `MataresitAPIError`
with the payload's `message` (defaulting to "API request failed"), the
status code, and the payload's `code`; wrap a transport failure into the
same error type with no status code. -/
def _request (outcome : RequestOutcome) : Except MataresitAPIError Json :=
  match outcome with
  | RequestOutcome.response status body =>
      if responseOk status then
        Except.ok body
      else
        Except.error
          { message := (body.get "message").getD (Json.str "API request failed"),
            status_code := some status,
            error_code := body.get "code" }
  | RequestOutcome.transportError errText =>
      Except.error
        { message := Json.str ("Request failed: " ++ errText),
          status_code := none,
          error_code := none }

/-- Result of a retry-wrapped call: the value returned or error raised, the
sequence of back-off sleeps performed (in seconds, in order), and the number
of `_request` attempts performed. -/
structure RetryResult where
  result : Except MataresitAPIError Json
  delays : List Nat
  attempts : Nat

/-- The body of `_request_with_retry`'s `for attempt in range(1, max_retries + 1)`
loop: the first argument list holds the remaining attempt numbers; `delays`
and `done` accumulate the sleeps and attempts performed so far. Falling off
the loop raises the generic "Max retries exceeded" error. -/
def retryLoop (outcomes : Nat → RequestOutcome) (maxRetries : Nat) :
    List Nat → List Nat → Nat → RetryResult
  | [], delays, done =>
      ⟨Except.error
        { message := Json.str "Max retries exceeded",
          status_code := none, error_code := none }, delays, done⟩
  | attempt :: rest, delays, done =>
      match _request (outcomes attempt) with
      | Except.ok v => ⟨Except.ok v, delays, done + 1⟩
      | Except.error e =>
          if e.status_code = some 429 ∧ attempt < maxRetries then
            retryLoop outcomes maxRetries rest (delays ++ [2 ^ attempt]) (done + 1)
          else
            ⟨Except.error e, delays, done + 1⟩

/-- Embedding of `AdvancedMataresitAPI._request_with_retry`: run the attempt
loop over attempt numbers `1, ..., maxRetries`, where `outcomes k` is what
the network does on attempt `k`. -/
def _request_with_retry (maxRetries : Nat) (outcomes : Nat → RequestOutcome) :
    RetryResult :=
  retryLoop outcomes maxRetries (List.range' 1 maxRetries) [] 0

/-- A network that always answers 429 with an empty JSON object body. -/
def out429 : Nat → RequestOutcome := fun _ => RequestOutcome.response 429 (Json.obj [])

/-- A network whose attempts 1 and 2 are rate-limited (429, empty object
body) and whose attempt 3 succeeds with status 200. -/
def outSeq429_429_200 : Nat → RequestOutcome := fun k =>
  if k < 3 then RequestOutcome.response 429 (Json.obj [])
  else RequestOutcome.response 200 (Json.obj [("data", Json.str "ok")])

/-- A network that always answers 500 with an empty JSON object body. -/
def out500 : Nat → RequestOutcome := fun _ => RequestOutcome.response 500 (Json.obj [])

/-- C1 counterexample: on a successful response whose parsed body is
`{"data": 1}`, `_request` returns the whole body `{"data": 1}`, which
differs from the body's `data` field `1`; so the returned value does not
equal the `data` field of the parsed response body. -/
theorem c1_counterexample :
    _request (RequestOutcome.response 200 (Json.obj [("data", Json.num 1)])) =
      Except.ok (Json.obj [("data", Json.num 1)]) ∧
    (Json.obj [("data", Json.num 1)]).get "data" = some (Json.num 1) ∧
    (Except.ok (Json.obj [("data", Json.num 1)]) :
      Except MataresitAPIError Json) ≠ Except.ok (Json.num 1) := by
  refine ⟨rfl, rfl, ?_⟩
  intro h
  simp at h

/-- C1 (amended): for every call whose HTTP response is successful and whose
body parses as JSON, the value returned to the caller is the entire parsed
response body (of which `data` is one field), not the `data` field alone. -/
theorem c1_request_returns_parsed_body :
    ∀ (status : Nat) (body : Json), responseOk status = true →
      _request (RequestOutcome.response status body) = Except.ok body := by
  intro status body h
  simp [_request, h]

/-- C1 witness: the amended statement instantiated at a successful status
200 response with body `{"data": 1}`. -/
theorem c1_witness :
    responseOk 200 = true ∧
    _request (RequestOutcome.response 200 (Json.obj [("data", Json.num 1)])) =
      Except.ok (Json.obj [("data", Json.num 1)]) :=
  ⟨rfl, c1_request_returns_parsed_body 200 (Json.obj [("data", Json.num 1)]) rfl⟩

/-- C2 counterexample: with max-retries = 3 and an unending sequence of
rate-limit responses, the call does perform exactly 3 attempts, but it does
not fail with the generic "Max retries exceeded" error: it re-raises the
underlying 429 error of the third attempt. -/
theorem c2_counterexample :
    (_request_with_retry 3 out429).attempts = 3 ∧
    (_request_with_retry 3 out429).result ≠
      Except.error
        { message := Json.str "Max retries exceeded",
          status_code := none, error_code := none } := by
  refine ⟨rfl, ?_⟩
  intro h
  rw [show (_request_with_retry 3 out429).result =
      Except.error
        { message := Json.str "API request failed",
          status_code := some 429, error_code := none } from rfl] at h
  simp at h

/-- C2 (amended): with max-retries = 3 and every attempt failing with a
rate-limit (429) error, the call performs exactly 3 attempts, sleeping 2
and 4 time units between them, and then fails by re-raising the 429 error
of the third attempt (not with the generic "max retries exceeded" error). -/
theorem c2_retry_exhaustion_reraises_last_429 :
    ∀ (outcomes : Nat → RequestOutcome) (e1 e2 e3 : MataresitAPIError),
      _request (outcomes 1) = Except.error e1 → e1.status_code = some 429 →
      _request (outcomes 2) = Except.error e2 → e2.status_code = some 429 →
      _request (outcomes 3) = Except.error e3 → e3.status_code = some 429 →
      _request_with_retry 3 outcomes = ⟨Except.error e3, [2, 4], 3⟩ := by
  intro outcomes e1 e2 e3 h1 hs1 h2 hs2 h3 hs3
  simp [_request_with_retry, List.range', retryLoop, h1, h2, h3, hs1, hs2, hs3]

/-- C2 witness: the amended statement instantiated at the all-429 network;
the error raised is the 429 error of the third attempt. -/
theorem c2_witness :
    _request_with_retry 3 out429 =
      ⟨Except.error
        { message := Json.str "API request failed",
          status_code := some 429, error_code := none }, [2, 4], 3⟩ :=
  c2_retry_exhaustion_reraises_last_429 out429 _ _ _ rfl rfl rfl rfl rfl rfl

/-- Helper for C3: running the attempt loop on attempt numbers
`done+1, ..., done+m`, if attempts `done+1, ..., done+t-1` all fail with
rate-limit (429) errors and attempt `done+t` fails with a non-429 error
(`t ≤ m`, `done + m ≤ maxRetries`), the loop raises that error right at
attempt `done+t`, having slept only the `t-1` back-off delays of the
earlier 429s and performing no further attempt. -/
theorem retryLoop_first_non429 (outcomes : Nat → RequestOutcome) (maxRetries : Nat) :
    ∀ (t : Nat), 1 ≤ t →
      ∀ (m done : Nat) (delays : List Nat) (e : MataresitAPIError),
      t ≤ m → done + m ≤ maxRetries →
      (∀ j, 1 ≤ j → j < t → ∃ ej, _request (outcomes (done + j)) = Except.error ej ∧
        ej.status_code = some 429) →
      _request (outcomes (done + t)) = Except.error e →
      ¬ e.status_code = some 429 →
      retryLoop outcomes maxRetries (List.range' (done + 1) m) delays done =
        ⟨Except.error e,
         delays ++ (List.range' (done + 1) (t - 1)).map (fun a => 2 ^ a),
         done + t⟩ := by
  intro t
  induction t with
  | zero =>
    intro h
    exact absurd h (by decide)
  | succ t ih =>
    intro _ m done delays e htm hmr h429 hstop hne
    obtain ⟨m1, rfl⟩ : ∃ m1, m = m1 + 1 := ⟨m - 1, by omega⟩
    rw [List.range'_succ]
    by_cases ht : t = 0
    · subst ht
      have hstop1 : _request (outcomes (done + 1)) = Except.error e := hstop
      simp only [retryLoop, hstop1]
      rw [if_neg (fun hcc => hne hcc.1)]
      simp
    · obtain ⟨t1, rfl⟩ : ∃ t1, t = t1 + 1 := ⟨t - 1, by omega⟩
      obtain ⟨e1, he1, hs1⟩ := h429 1 (by omega) (by omega)
      simp only [retryLoop, he1]
      rw [if_pos ⟨hs1, by omega⟩]
      have hrec := ih (by omega) m1 (done + 1) (delays ++ [2 ^ (done + 1)]) e
        (by omega) (by omega)
        (fun j hj1 hjt => by
          have harith : done + 1 + j = done + (j + 1) := by omega
          rw [harith]
          exact h429 (j + 1) (by omega) (by omega))
        (by
          have harith : done + 1 + (t1 + 1) = done + (t1 + 1 + 1) := by omega
          rw [harith]
          exact hstop)
        hne
      rw [hrec]
      congr 1
      · simp only [Nat.add_sub_cancel]
        rw [List.range'_succ]
        simp
      · omega

/-- C3: with the default max-retries = 3 and underlying responses
[429, 429, 200], exactly 2 back-off sleeps occur, of 2^1 = 2 and 2^2 = 4
time units, and the call returns the payload of the 200 response after 3
attempts; and any non-429 error propagates immediately, wherever it occurs:
if attempts 1 to k-1 are rate-limited and attempt k (within max-retries)
fails with a non-429 error, that error is raised at attempt k with no
further attempt and no sleep beyond the k-1 earlier back-off delays. -/
theorem c3_retry_backoff_sequence :
    (∀ (outcomes : Nat → RequestOutcome) (e1 e2 : MataresitAPIError) (v : Json),
      _request (outcomes 1) = Except.error e1 → e1.status_code = some 429 →
      _request (outcomes 2) = Except.error e2 → e2.status_code = some 429 →
      _request (outcomes 3) = Except.ok v →
      _request_with_retry 3 outcomes = ⟨Except.ok v, [2, 4], 3⟩) ∧
    (∀ (maxRetries : Nat) (outcomes : Nat → RequestOutcome) (k : Nat)
      (e : MataresitAPIError),
      1 ≤ k → k ≤ maxRetries →
      (∀ j, 1 ≤ j → j < k → ∃ ej, _request (outcomes j) = Except.error ej ∧
        ej.status_code = some 429) →
      _request (outcomes k) = Except.error e → ¬ e.status_code = some 429 →
      _request_with_retry maxRetries outcomes =
        ⟨Except.error e, (List.range' 1 (k - 1)).map (fun a => 2 ^ a), k⟩) := by
  constructor
  · intro outcomes e1 e2 v h1 hs1 h2 hs2 h3
    simp [_request_with_retry, List.range', retryLoop, h1, h2, h3, hs1, hs2]
  · intro maxRetries outcomes k e hk1 hkm h429 hstop hne
    have h := retryLoop_first_non429 outcomes maxRetries k hk1 maxRetries 0 [] e
      hkm (by omega)
      (fun j hj1 hjk => by rw [Nat.zero_add]; exact h429 j hj1 hjk)
      (by rw [Nat.zero_add]; exact hstop)
      hne
    unfold _request_with_retry
    simpa using h

/-- A network whose attempt 1 is rate-limited (429) and whose attempt 2
fails with status 500. -/
def out429_500 : Nat → RequestOutcome := fun k =>
  if k = 1 then RequestOutcome.response 429 (Json.obj [])
  else RequestOutcome.response 500 (Json.obj [])

/-- C3 witness: the theorem instantiated at the [429, 429, 200] network, at
the all-500 network (non-429 on attempt 1: no sleep, one attempt), and at
the [429, 500] network (non-429 on attempt 2: one sleep of 2, two
attempts). -/
theorem c3_witness :
    _request_with_retry 3 outSeq429_429_200 =
      ⟨Except.ok (Json.obj [("data", Json.str "ok")]), [2, 4], 3⟩ ∧
    _request_with_retry 3 out500 =
      ⟨Except.error
        { message := Json.str "API request failed",
          status_code := some 500, error_code := none }, [], 1⟩ ∧
    _request_with_retry 3 out429_500 =
      ⟨Except.error
        { message := Json.str "API request failed",
          status_code := some 500, error_code := none }, [2], 2⟩ :=
  ⟨c3_retry_backoff_sequence.1 outSeq429_429_200 _ _ _ rfl rfl rfl rfl rfl,
   c3_retry_backoff_sequence.2 3 out500 1 _ (by decide) (by decide)
     (fun j hj1 hjk => absurd (Nat.lt_of_le_of_lt hj1 hjk) (by decide))
     rfl (by decide),
   c3_retry_backoff_sequence.2 3 out429_500 2 _ (by decide) (by decide)
     (fun j hj1 hjk => by
       have hj : j = 1 := by omega
       subst hj
       exact ⟨{ message := Json.str "API request failed",
                status_code := some 429, error_code := none }, rfl, rfl⟩)
     rfl (by decide)⟩

/-- C4: for every non-success HTTP response whose body parses as JSON, the
raised error carries the response's status code and the payload's `message`
(falling back to "API request failed" when absent) together with the
payload's optional `code`; for every transport-level failure, the raised
error is the same `MataresitAPIError` type, has a descriptive
"Request failed: ..." message, and carries no status code. -/
theorem c4_error_mapping :
    (∀ (status : Nat) (body : Json), responseOk status = false →
      _request (RequestOutcome.response status body) =
        Except.error
          { message := (body.get "message").getD (Json.str "API request failed"),
            status_code := some status,
            error_code := body.get "code" }) ∧
    (∀ errText : String,
      _request (RequestOutcome.transportError errText) =
        Except.error
          { message := Json.str ("Request failed: " ++ errText),
            status_code := none, error_code := none }) := by
  constructor
  · intro status body h
    simp [_request, h]
  · intro errText
    rfl

/-- C4 witness: the theorem instantiated at a 404 response with body
`{"message": "Not found", "code": "NOT_FOUND"}` and at a transport failure
with text "timeout". -/
theorem c4_witness :
    responseOk 404 = false ∧
    _request (RequestOutcome.response 404
        (Json.obj [("message", Json.str "Not found"), ("code", Json.str "NOT_FOUND")])) =
      Except.error
        { message := Json.str "Not found", status_code := some 404,
          error_code := some (Json.str "NOT_FOUND") } ∧
    _request (RequestOutcome.transportError "timeout") =
      Except.error
        { message := Json.str "Request failed: timeout",
          status_code := none, error_code := none } := by
  refine ⟨rfl, ?_, c4_error_mapping.2 "timeout"⟩
  have h := c4_error_mapping.1 404
    (Json.obj [("message", Json.str "Not found"), ("code", Json.str "NOT_FOUND")]) rfl
  rw [h]
  rfl

/-- Helper for C10: if the attempt loop, run on the remaining attempt
numbers `done+1, ..., done+m` with `maxRetries ≤ done + m`, ends in an
error, that error is the one `_request` produced on the last attempt
performed; the final fall-through error is never reached. -/
theorem retryLoop_err_spec (outcomes : Nat → RequestOutcome) (maxRetries : Nat) :
    ∀ (m done : Nat) (delays : List Nat) (e : MataresitAPIError),
      maxRetries ≤ done + m → 0 < m →
      (retryLoop outcomes maxRetries (List.range' (done + 1) m) delays done).result =
        Except.error e →
      _request (outcomes
          ((retryLoop outcomes maxRetries (List.range' (done + 1) m) delays done).attempts)) =
        Except.error e ∧
      done < (retryLoop outcomes maxRetries (List.range' (done + 1) m) delays done).attempts ∧
      (retryLoop outcomes maxRetries (List.range' (done + 1) m) delays done).attempts ≤
        done + m := by
  intro m
  induction m with
  | zero =>
    intro done delays e _ h0
    exact absurd h0 (by decide)
  | succ m ih =>
    intro done delays e hle _ hres
    rw [List.range'_succ] at hres ⊢
    cases hreq : _request (outcomes (done + 1)) with
    | ok v =>
      simp only [retryLoop, hreq] at hres
      exact Except.noConfusion hres
    | error e1 =>
      by_cases hc : e1.status_code = some 429 ∧ done + 1 < maxRetries
      · simp only [retryLoop, hreq, if_pos hc] at hres ⊢
        have h2 := ih (done + 1) (delays ++ [2 ^ (done + 1)]) e (by omega)
          (by omega) hres
        exact ⟨h2.1, by omega, by omega⟩
      · simp only [retryLoop, hreq, if_neg hc] at hres ⊢
        simp only [Except.error.injEq] at hres
        subst hres
        exact ⟨rfl, by omega, by omega⟩

/-- C10: for max-retries ≥ 1, the generic "Max retries exceeded" raise after
the loop is unreachable: a failing call re-raises the underlying `_request`
error of the last attempt performed (an attempt between 1 and max-retries);
with max-retries = 0 the wrapper performs zero attempts and raises the
generic "Max retries exceeded" error immediately. -/
theorem c10_final_raise_unreachable :
    (∀ (maxRetries : Nat) (outcomes : Nat → RequestOutcome) (e : MataresitAPIError),
      1 ≤ maxRetries →
      (_request_with_retry maxRetries outcomes).result = Except.error e →
      _request (outcomes ((_request_with_retry maxRetries outcomes).attempts)) =
        Except.error e ∧
      1 ≤ (_request_with_retry maxRetries outcomes).attempts ∧
      (_request_with_retry maxRetries outcomes).attempts ≤ maxRetries) ∧
    (∀ outcomes : Nat → RequestOutcome,
      _request_with_retry 0 outcomes =
        ⟨Except.error
          { message := Json.str "Max retries exceeded",
            status_code := none, error_code := none }, [], 0⟩) := by
  constructor
  · intro maxRetries outcomes e hm hres
    unfold _request_with_retry at hres ⊢
    have h := retryLoop_err_spec outcomes maxRetries maxRetries 0 [] e (by omega) hm
      (by simpa using hres)
    simpa using h
  · intro outcomes
    rfl

/-- C10 witness: with max-retries = 1 and an all-429 network the raised
error is the 429 error of the (single) last attempt, and with
max-retries = 0 the generic error is raised with zero attempts. -/
theorem c10_witness :
    _request (out429 ((_request_with_retry 1 out429).attempts)) =
      Except.error
        { message := Json.str "API request failed",
          status_code := some 429, error_code := none } ∧
    _request_with_retry 0 out429 =
      ⟨Except.error
        { message := Json.str "Max retries exceeded",
          status_code := none, error_code := none }, [], 0⟩ :=
  ⟨(c10_final_raise_unreachable.1 1 out429 _ (by decide) rfl).1,
   c10_final_raise_unreachable.2 out429⟩

/-- The status read by `wait_for_processing` from one `get_receipt` body:
`receipt['data'].get('processingStatus', 'pending')`. (The Python code
indexes `receipt['data']` directly; bodies without a `data` object are
outside the behaviour the spec describes and are given the default.) -/
def processingStatus (receipt : Json) : Json :=
  (((receipt.get "data").getD Json.null).get "processingStatus").getD
    (Json.str "pending")

/-- The error `MataresitAPIError("Receipt processing failed")`. -/
def processingFailedError : MataresitAPIError :=
  { message := Json.str "Receipt processing failed",
    status_code := none, error_code := none }

/-- The error `MataresitAPIError("Receipt processing timeout")`. -/
def timeoutError : MataresitAPIError :=
  { message := Json.str "Receipt processing timeout",
    status_code := none, error_code := none }

/-- Embedding of the `while time.time() - start_time < max_wait` loop of
`wait_for_processing`: `responses k` is the parsed body of the `k`-th
`get_receipt` call (counted from 0), `elapsed` the wall-clock time consumed
so far. Time advances only by the `time.sleep(2)` at the end of each
iteration. Returns the Python return value or raised error, together with
the number of sleeps performed. -/
def waitLoop (responses : Nat → Json) (maxWait : Nat) (k elapsed : Nat) :
    Except MataresitAPIError Json × Nat :=
  if h : elapsed < maxWait then
    if (processingStatus (responses k)).isStr "complete" then
      (Except.ok (responses k), k)
    else if (processingStatus (responses k)).isStr "failed" then
      (Except.error processingFailedError, k)
    else
      waitLoop responses maxWait (k + 1) (elapsed + 2)
  else
    (Except.error timeoutError, k)
termination_by maxWait - elapsed
decreasing_by omega

/-- Embedding of `AdvancedMataresitAPI.wait_for_processing`: run the poll
loop from time 0 and poll 0. -/
def wait_for_processing (responses : Nat → Json) (maxWait : Nat) :
    Except MataresitAPIError Json × Nat :=
  waitLoop responses maxWait 0 0

/-- One poll that reports `complete` within the deadline returns that
response body at once. -/
theorem waitLoop_step_complete (responses : Nat → Json) (maxWait k elapsed : Nat)
    (ht : elapsed < maxWait)
    (hc : (processingStatus (responses k)).isStr "complete" = true) :
    waitLoop responses maxWait k elapsed = (Except.ok (responses k), k) := by
  unfold waitLoop
  rw [dif_pos ht, if_pos hc]

/-- One poll that reports `failed` within the deadline raises the
processing-failed error at once. -/
theorem waitLoop_step_failed (responses : Nat → Json) (maxWait k elapsed : Nat)
    (ht : elapsed < maxWait)
    (hc : (processingStatus (responses k)).isStr "complete" = false)
    (hf : (processingStatus (responses k)).isStr "failed" = true) :
    waitLoop responses maxWait k elapsed =
      (Except.error processingFailedError, k) := by
  unfold waitLoop
  rw [dif_pos ht, if_neg (by simp [hc]), if_pos hf]

/-- One poll that reports neither terminal status sleeps 2 time units and
continues. -/
theorem waitLoop_step_continue (responses : Nat → Json) (maxWait k elapsed : Nat)
    (ht : elapsed < maxWait)
    (hc : (processingStatus (responses k)).isStr "complete" = false)
    (hf : (processingStatus (responses k)).isStr "failed" = false) :
    waitLoop responses maxWait k elapsed =
      waitLoop responses maxWait (k + 1) (elapsed + 2) := by
  conv_lhs => rw [waitLoop]
  rw [dif_pos ht, if_neg (by simp [hc]), if_neg (by simp [hf])]

/-- Once the elapsed time reaches the deadline, the loop exits with the
timeout error without polling again. -/
theorem waitLoop_step_timeout (responses : Nat → Json) (maxWait k elapsed : Nat)
    (ht : ¬ elapsed < maxWait) :
    waitLoop responses maxWait k elapsed = (Except.error timeoutError, k) := by
  unfold waitLoop
  rw [dif_neg ht]

/-- C5: with the default max-wait of 30 and a status sequence
[pending, pending, complete], the poll loop returns the body of the status
check that reported `complete`, after exactly 2 fixed 2-unit sleeps. -/
theorem c5_poll_two_pending_then_complete :
    ∀ responses : Nat → Json,
      processingStatus (responses 0) = Json.str "pending" →
      processingStatus (responses 1) = Json.str "pending" →
      processingStatus (responses 2) = Json.str "complete" →
      wait_for_processing responses 30 = (Except.ok (responses 2), 2) := by
  intro responses h0 h1 h2
  have e0 := waitLoop_step_continue responses 30 0 0 (by omega)
    (by rw [h0]; rfl) (by rw [h0]; rfl)
  have e1 := waitLoop_step_continue responses 30 1 2 (by omega)
    (by rw [h1]; rfl) (by rw [h1]; rfl)
  have e2 := waitLoop_step_complete responses 30 2 4 (by omega) (by rw [h2]; rfl)
  unfold wait_for_processing
  rw [e0]
  norm_num
  rw [e1]
  norm_num
  rw [e2]

/-- Receipt bodies for the status sequence [pending, pending, complete]. -/
def pollSeqPPC : Nat → Json := fun k =>
  Json.obj [("data", Json.obj [("processingStatus",
    if k < 2 then Json.str "pending" else Json.str "complete")])]

/-- C5 witness: the theorem instantiated at concrete receipt bodies whose
statuses are [pending, pending, complete]. -/
theorem c5_witness :
    wait_for_processing pollSeqPPC 30 = (Except.ok (pollSeqPPC 2), 2) :=
  c5_poll_two_pending_then_complete pollSeqPPC rfl rfl rfl

/-- Helper for C6: from poll `k` at time `elapsed`, a run of `j` pending
statuses followed by a `failed` status within the deadline raises the
processing-failed error right at that poll, after `j` further sleeps. -/
theorem waitLoop_failed_seq (responses : Nat → Json) (maxWait : Nat) :
    ∀ (j k elapsed : Nat),
      (∀ i, i < j → processingStatus (responses (k + i)) = Json.str "pending") →
      processingStatus (responses (k + j)) = Json.str "failed" →
      elapsed + 2 * j < maxWait →
      waitLoop responses maxWait k elapsed =
        (Except.error processingFailedError, k + j) := by
  intro j
  induction j with
  | zero =>
    intro k elapsed _ hf ht
    exact waitLoop_step_failed responses maxWait k elapsed (by omega)
      (by rw [show processingStatus (responses k) =
        processingStatus (responses (k + 0)) from rfl, hf]; rfl)
      (by rw [show processingStatus (responses k) =
        processingStatus (responses (k + 0)) from rfl, hf]; rfl)
  | succ j ih =>
    intro k elapsed hp hf ht
    have hp0 : processingStatus (responses k) = Json.str "pending" :=
      hp 0 (by omega)
    rw [waitLoop_step_continue responses maxWait k elapsed (by omega)
      (by rw [hp0]; rfl) (by rw [hp0]; rfl)]
    have hrec := ih (k + 1) (elapsed + 2)
      (fun i hi => by
        have harith : k + 1 + i = k + (i + 1) := by omega
        rw [harith]
        exact hp (i + 1) (by omega))
      (by
        have harith : k + 1 + j = k + (j + 1) := by omega
        rw [harith]
        exact hf)
      (by omega)
    rw [hrec]
    congr 1
    omega

/-- C6: for every status sequence consisting of `pending` up to a poll that
reports `failed` (all within the max-wait deadline), the call fails with
the processing-failed error at the first `failed` status, performing no
further polls. -/
theorem c6_poll_failed_immediate :
    ∀ (responses : Nat → Json) (maxWait j : Nat),
      (∀ i, i < j → processingStatus (responses i) = Json.str "pending") →
      processingStatus (responses j) = Json.str "failed" →
      2 * j < maxWait →
      wait_for_processing responses maxWait =
        (Except.error processingFailedError, j) := by
  intro responses maxWait j hp hf ht
  unfold wait_for_processing
  have h := waitLoop_failed_seq responses maxWait j 0 0
    (fun i hi => by rw [Nat.zero_add]; exact hp i hi)
    (by rw [Nat.zero_add]; exact hf)
    (by omega)
  simpa using h

/-- Receipt bodies for the status sequence [pending, failed, ...]. -/
def pollSeqPF : Nat → Json := fun k =>
  Json.obj [("data", Json.obj [("processingStatus",
    if k < 1 then Json.str "pending" else Json.str "failed")])]

/-- C6 witness: the theorem instantiated at concrete receipt bodies whose
statuses are [pending, failed]: the loop stops at poll 1. -/
theorem c6_witness :
    wait_for_processing pollSeqPF 30 =
      (Except.error processingFailedError, 1) :=
  c6_poll_failed_immediate pollSeqPF 30 1
    (fun i hi => by
      have h0 : i = 0 := by omega
      rw [h0]
      rfl)
    rfl (by omega)

/-- Helper for C7: if every poll reports `pending`, the loop runs until the
deadline and exits with the timeout error after `(maxWait - elapsed + 1) / 2`
further sleeps. -/
theorem waitLoop_all_pending (responses : Nat → Json) (maxWait : Nat)
    (hp : ∀ i, processingStatus (responses i) = Json.str "pending") :
    ∀ (d k elapsed : Nat), maxWait - elapsed = d →
      waitLoop responses maxWait k elapsed =
        (Except.error timeoutError, k + (maxWait - elapsed + 1) / 2) := by
  intro d
  induction d using Nat.strong_induction_on with
  | _ d ih =>
    intro k elapsed hd
    by_cases ht : elapsed < maxWait
    · rw [waitLoop_step_continue responses maxWait k elapsed ht
        (by rw [hp k]; rfl) (by rw [hp k]; rfl)]
      rw [ih (maxWait - (elapsed + 2)) (by omega) (k + 1) (elapsed + 2) rfl]
      congr 1
      omega
    · rw [waitLoop_step_timeout responses maxWait k elapsed ht]
      congr 1
      omega

/-- Helper for C7: for every status sequence whatsoever, the loop performs
at most `(maxWait - elapsed + 1) / 2` further sleeps, so it terminates. -/
theorem waitLoop_sleeps_le (responses : Nat → Json) (maxWait : Nat) :
    ∀ (d k elapsed : Nat), maxWait - elapsed = d →
      (waitLoop responses maxWait k elapsed).2 ≤
        k + (maxWait - elapsed + 1) / 2 := by
  intro d
  induction d using Nat.strong_induction_on with
  | _ d ih =>
    intro k elapsed hd
    by_cases ht : elapsed < maxWait
    · by_cases hc : (processingStatus (responses k)).isStr "complete" = true
      · rw [waitLoop_step_complete responses maxWait k elapsed ht hc]
        omega
      · have hc' : (processingStatus (responses k)).isStr "complete" = false := by
          simpa using hc
        by_cases hf : (processingStatus (responses k)).isStr "failed" = true
        · rw [waitLoop_step_failed responses maxWait k elapsed ht hc' hf]
          omega
        · have hf' : (processingStatus (responses k)).isStr "failed" = false := by
            simpa using hf
          rw [waitLoop_step_continue responses maxWait k elapsed ht hc' hf']
          have h := ih (maxWait - (elapsed + 2)) (by omega) (k + 1) (elapsed + 2) rfl
          omega
    · rw [waitLoop_step_timeout responses maxWait k elapsed ht]
      omega

/-- C7: for every status sequence that remains `pending`, the call fails
with the timeout error once the elapsed time reaches the max-wait bound,
after `(maxWait + 1) / 2` sleeps; and for every status sequence whatsoever
the loop terminates within `(maxWait + 1) / 2` sleeps. -/
theorem c7_poll_timeout :
    (∀ (responses : Nat → Json) (maxWait : Nat),
      (∀ i, processingStatus (responses i) = Json.str "pending") →
      wait_for_processing responses maxWait =
        (Except.error timeoutError, (maxWait + 1) / 2)) ∧
    (∀ (responses : Nat → Json) (maxWait : Nat),
      (wait_for_processing responses maxWait).2 ≤ (maxWait + 1) / 2) := by
  constructor
  · intro responses maxWait hp
    have h := waitLoop_all_pending responses maxWait hp (maxWait - 0) 0 0 rfl
    simpa using h
  · intro responses maxWait
    have h := waitLoop_sleeps_le responses maxWait (maxWait - 0) 0 0 rfl
    simpa using h

/-- Receipt bodies that always report `pending`. -/
def pollSeqP : Nat → Json := fun _ =>
  Json.obj [("data", Json.obj [("processingStatus", Json.str "pending")])]

/-- C7 witness: with the default max-wait of 30 and an always-pending
sequence, the loop times out after 15 sleeps; the sleep bound instantiated
at max-wait 4 gives at most 2 sleeps. -/
theorem c7_witness :
    wait_for_processing pollSeqP 30 = (Except.error timeoutError, 15) ∧
    (wait_for_processing pollSeqP 4).2 ≤ 2 := by
  constructor
  · have h := c7_poll_timeout.1 pollSeqP 30 (fun i => rfl)
    simpa using h
  · have h := c7_poll_timeout.2 pollSeqP 4
    simpa using h

/-- Trace of a `bulk_upload_with_progress` run: the accumulated `successful`
and `failed` lists, the chunks passed to `create_receipts_batch` in order,
and the 1-based numbers of the batches after which the inter-chunk
`time.sleep(1)` occurred. -/
structure BulkState where
  successful : List Json
  failed : List Json
  sentBatches : List (List Json)
  delaysAfter : List Nat

/-- Embedding of the `for i in range(0, total_receipts, batch_size)` loop of
`bulk_upload_with_progress`. `results bn` is what `create_receipts_batch`
does on the batch numbered `bn` (1-based, `bn = i // batch_size + 1`): on
success the pair of the response's `data.created` and `data.errors` lists,
on failure the raised `MataresitAPIError`. A chunk failure appends the
single entry `{'error': e.message, 'batch': bn}` to `failed`; the delay
occurs when `i + batch_size < total_receipts`. (Python's `range` rejects a
zero step, so the loop runs only for a positive batch size.) -/
def bulkLoop (results : Nat → Except MataresitAPIError (List Json × List Json))
    (receipts : List Json) (batchSize : Nat) (i : Nat) : BulkState :=
  if _hrun : i < receipts.length ∧ 0 < batchSize then
    match results (i / batchSize + 1) with
    | Except.ok (created, errors) =>
        { successful :=
            created ++ (bulkLoop results receipts batchSize (i + batchSize)).successful,
          failed :=
            errors ++ (bulkLoop results receipts batchSize (i + batchSize)).failed,
          sentBatches :=
            (receipts.drop i).take batchSize ::
              (bulkLoop results receipts batchSize (i + batchSize)).sentBatches,
          delaysAfter :=
            (if i + batchSize < receipts.length then [i / batchSize + 1] else []) ++
              (bulkLoop results receipts batchSize (i + batchSize)).delaysAfter }
    | Except.error e =>
        { successful := (bulkLoop results receipts batchSize (i + batchSize)).successful,
          failed :=
            Json.obj [("error", e.message), ("batch", Json.num (i / batchSize + 1))] ::
              (bulkLoop results receipts batchSize (i + batchSize)).failed,
          sentBatches :=
            (receipts.drop i).take batchSize ::
              (bulkLoop results receipts batchSize (i + batchSize)).sentBatches,
          delaysAfter :=
            (if i + batchSize < receipts.length then [i / batchSize + 1] else []) ++
              (bulkLoop results receipts batchSize (i + batchSize)).delaysAfter }
  else
    { successful := [], failed := [], sentBatches := [], delaysAfter := [] }
termination_by receipts.length - i
decreasing_by omega

/-- The dictionary returned by `bulk_upload_with_progress`. -/
structure BulkReport where
  total : Nat
  successful : Nat
  failed : Nat
  successful_receipts : List Json
  failed_receipts : List Json

/-- Embedding of `AdvancedMataresitAPI.bulk_upload_with_progress`: run the
batch loop from index 0 and return the aggregate counts and itemized
lists. -/
def bulk_upload_with_progress
    (results : Nat → Except MataresitAPIError (List Json × List Json))
    (receipts : List Json) (batchSize : Nat) : BulkReport :=
  { total := receipts.length,
    successful := (bulkLoop results receipts batchSize 0).successful.length,
    failed := (bulkLoop results receipts batchSize 0).failed.length,
    successful_receipts := (bulkLoop results receipts batchSize 0).successful,
    failed_receipts := (bulkLoop results receipts batchSize 0).failed }

/-- Unfolding of one successful chunk upload. -/
theorem bulkLoop_step_ok
    (results : Nat → Except MataresitAPIError (List Json × List Json))
    (receipts : List Json) (batchSize i : Nat)
    (created errors : List Json)
    (h : i < receipts.length) (hb : 0 < batchSize)
    (hres : results (i / batchSize + 1) = Except.ok (created, errors)) :
    bulkLoop results receipts batchSize i =
      { successful :=
          created ++ (bulkLoop results receipts batchSize (i + batchSize)).successful,
        failed :=
          errors ++ (bulkLoop results receipts batchSize (i + batchSize)).failed,
        sentBatches :=
          (receipts.drop i).take batchSize ::
            (bulkLoop results receipts batchSize (i + batchSize)).sentBatches,
        delaysAfter :=
          (if i + batchSize < receipts.length then [i / batchSize + 1] else []) ++
            (bulkLoop results receipts batchSize (i + batchSize)).delaysAfter } := by
  conv_lhs => rw [bulkLoop]
  rw [dif_pos ⟨h, hb⟩, hres]

/-- Unfolding of one failing chunk upload. -/
theorem bulkLoop_step_err
    (results : Nat → Except MataresitAPIError (List Json × List Json))
    (receipts : List Json) (batchSize i : Nat) (e : MataresitAPIError)
    (h : i < receipts.length) (hb : 0 < batchSize)
    (hres : results (i / batchSize + 1) = Except.error e) :
    bulkLoop results receipts batchSize i =
      { successful := (bulkLoop results receipts batchSize (i + batchSize)).successful,
        failed :=
          Json.obj [("error", e.message), ("batch", Json.num (i / batchSize + 1))] ::
            (bulkLoop results receipts batchSize (i + batchSize)).failed,
        sentBatches :=
          (receipts.drop i).take batchSize ::
            (bulkLoop results receipts batchSize (i + batchSize)).sentBatches,
        delaysAfter :=
          (if i + batchSize < receipts.length then [i / batchSize + 1] else []) ++
            (bulkLoop results receipts batchSize (i + batchSize)).delaysAfter } := by
  conv_lhs => rw [bulkLoop]
  rw [dif_pos ⟨h, hb⟩, hres]

/-- Unfolding of the loop once the index passes the end of the list (or the
batch size is zero). -/
theorem bulkLoop_step_done
    (results : Nat → Except MataresitAPIError (List Json × List Json))
    (receipts : List Json) (batchSize i : Nat)
    (h : ¬ (i < receipts.length ∧ 0 < batchSize)) :
    bulkLoop results receipts batchSize i =
      { successful := [], failed := [], sentBatches := [], delaysAfter := [] } := by
  conv_lhs => rw [bulkLoop]
  rw [dif_neg h]

/-- A running chunk always sends its batch, whatever `create_receipts_batch`
does on it. -/
theorem bulkLoop_sentBatches_cons
    (results : Nat → Except MataresitAPIError (List Json × List Json))
    (receipts : List Json) (batchSize i : Nat)
    (h : i < receipts.length) (hb : 0 < batchSize) :
    (bulkLoop results receipts batchSize i).sentBatches =
      (receipts.drop i).take batchSize ::
        (bulkLoop results receipts batchSize (i + batchSize)).sentBatches := by
  cases hres : results (i / batchSize + 1) with
  | ok pair =>
    cases pair with
    | mk created errors =>
      rw [bulkLoop_step_ok results receipts batchSize i created errors h hb hres]
  | error e =>
    rw [bulkLoop_step_err results receipts batchSize i e h hb hres]

/-- Specification-side characterization of the failure list: one block per
batch, a failing batch contributing exactly its single aggregate entry and
a successful batch contributing the response's `errors` list. Written from
the spec sentence "a chunk-level failure is recorded as a single aggregate
error entry for that chunk", to be compared with what `bulkLoop` computes. -/
def failedEntriesSpec
    (results : Nat → Except MataresitAPIError (List Json × List Json)) :
    Nat → Nat → List Json
  | _, 0 => []
  | bn, n + 1 =>
      (match results bn with
       | Except.ok (_, errors) => errors
       | Except.error e =>
           [Json.obj [("error", e.message), ("batch", Json.num bn)]]) ++
      failedEntriesSpec results (bn + 1) n

/-- The inter-chunk delays of a running chunk, whatever
`create_receipts_batch` does on it. -/
theorem bulkLoop_delaysAfter_cons
    (results : Nat → Except MataresitAPIError (List Json × List Json))
    (receipts : List Json) (batchSize i : Nat)
    (h : i < receipts.length) (hb : 0 < batchSize) :
    (bulkLoop results receipts batchSize i).delaysAfter =
      (if i + batchSize < receipts.length then [i / batchSize + 1] else []) ++
        (bulkLoop results receipts batchSize (i + batchSize)).delaysAfter := by
  cases hres : results (i / batchSize + 1) with
  | ok pair =>
    cases pair with
    | mk created errors =>
      rw [bulkLoop_step_ok results receipts batchSize i created errors h hb hres]
  | error e =>
    rw [bulkLoop_step_err results receipts batchSize i e h hb hres]

/-- Every receipt is sent in exactly one chunk, in order: concatenating the
sent batches from index `i` on recovers the receipts from `i` on, whatever
the per-chunk outcomes are. -/
theorem bulkLoop_join
    (results : Nat → Except MataresitAPIError (List Json × List Json))
    (receipts : List Json) (batchSize : Nat) (hb : 0 < batchSize) :
    ∀ (d i : Nat), receipts.length - i = d →
      ((bulkLoop results receipts batchSize i).sentBatches).flatten =
        receipts.drop i := by
  intro d
  induction d using Nat.strong_induction_on with
  | _ d ih =>
    intro i hd
    by_cases h : i < receipts.length
    · rw [bulkLoop_sentBatches_cons results receipts batchSize i h hb]
      simp only [List.flatten]
      rw [ih (receipts.length - (i + batchSize)) (by omega) (i + batchSize) rfl]
      have hdd : receipts.drop (i + batchSize) = (receipts.drop i).drop batchSize := by
        rw [List.drop_drop]
      rw [hdd, List.take_append_drop]
    · rw [bulkLoop_step_done results receipts batchSize i (by omega)]
      simp [List.drop_eq_nil_of_le (by omega : receipts.length ≤ i)]

/-- The inter-chunk delay occurs after every chunk except the last: the
delay positions from index `i` on are exactly the batch numbers of all
chunks from `i` on but the final one. -/
theorem bulkLoop_delaysAfter_range
    (results : Nat → Except MataresitAPIError (List Json × List Json))
    (receipts : List Json) (batchSize : Nat) (hb : 0 < batchSize) :
    ∀ (d i : Nat), receipts.length - i = d →
      (bulkLoop results receipts batchSize i).delaysAfter =
        List.range' (i / batchSize + 1)
          ((bulkLoop results receipts batchSize i).sentBatches.length - 1) := by
  intro d
  induction d using Nat.strong_induction_on with
  | _ d ih =>
    intro i hd
    by_cases h : i < receipts.length
    · rw [bulkLoop_delaysAfter_cons results receipts batchSize i h hb,
          bulkLoop_sentBatches_cons results receipts batchSize i h hb]
      rw [ih (receipts.length - (i + batchSize)) (by omega) (i + batchSize) rfl]
      have hdd : (i + batchSize) / batchSize = i / batchSize + 1 :=
        Nat.add_div_right i hb
      by_cases h2 : i + batchSize < receipts.length
      · rw [if_pos h2]
        rw [bulkLoop_sentBatches_cons results receipts batchSize (i + batchSize) h2 hb]
        simp only [List.length_cons, Nat.add_sub_cancel, hdd]
        rw [List.range'_succ]
        simp
      · rw [if_neg h2]
        rw [bulkLoop_step_done results receipts batchSize (i + batchSize) (by omega)]
        simp [List.range']
    · rw [bulkLoop_step_done results receipts batchSize i (by omega)]
      simp [List.range']

/-- The failure list computed by the loop from index `i` on is exactly the
specification-side per-batch characterization. -/
theorem bulkLoop_failed_spec
    (results : Nat → Except MataresitAPIError (List Json × List Json))
    (receipts : List Json) (batchSize : Nat) (hb : 0 < batchSize) :
    ∀ (d i : Nat), receipts.length - i = d →
      (bulkLoop results receipts batchSize i).failed =
        failedEntriesSpec results (i / batchSize + 1)
          ((bulkLoop results receipts batchSize i).sentBatches.length) := by
  intro d
  induction d using Nat.strong_induction_on with
  | _ d ih =>
    intro i hd
    by_cases h : i < receipts.length
    · have hdd : (i + batchSize) / batchSize = i / batchSize + 1 :=
        Nat.add_div_right i hb
      cases hres : results (i / batchSize + 1) with
      | ok pair =>
        cases pair with
        | mk created errors =>
          rw [bulkLoop_step_ok results receipts batchSize i created errors h hb hres]
          rw [ih (receipts.length - (i + batchSize)) (by omega) (i + batchSize) rfl]
          simp only [List.length_cons, failedEntriesSpec, hres, hdd]
      | error e =>
        rw [bulkLoop_step_err results receipts batchSize i e h hb hres]
        rw [ih (receipts.length - (i + batchSize)) (by omega) (i + batchSize) rfl]
        simp only [List.length_cons, failedEntriesSpec, hres, hdd]
        simp
    · rw [bulkLoop_step_done results receipts batchSize i (by omega)]
      rfl

/-- Eleven receipts, for the concrete batch-splitting instance. -/
def receipts11 : List Json := List.replicate 11 Json.null

/-- A batch-create behaviour that always succeeds with empty lists. -/
def resultsAllOk : Nat → Except MataresitAPIError (List Json × List Json) :=
  fun _ => Except.ok ([], [])

/-- A batch-create behaviour that fails on batch number 2 and succeeds
elsewhere. -/
def resultsFail2 : Nat → Except MataresitAPIError (List Json × List Json) :=
  fun bn =>
    if bn = 2 then
      Except.error
        { message := Json.str "boom", status_code := some 500, error_code := none }
    else Except.ok ([Json.num 7], [])

/-- C8: uploading 11 receipts with batch size 5 sends exactly 3 chunks, of
sizes 5, 5 and 1, with the inter-chunk delay after batches 1 and 2 but not
after batch 3 — whatever each batch call does; and in general the delay
occurs after every chunk except the last. -/
theorem c8_batch_chunking_delays :
    (∀ results,
      (bulkLoop results receipts11 5 0).sentBatches.map List.length = [5, 5, 1] ∧
      (bulkLoop results receipts11 5 0).delaysAfter = [1, 2]) ∧
    (∀ results (receipts : List Json) (batchSize : Nat), 0 < batchSize →
      (bulkLoop results receipts batchSize 0).delaysAfter =
        List.range' 1 ((bulkLoop results receipts batchSize 0).sentBatches.length - 1)) := by
  have hgen : ∀ results (receipts : List Json) (batchSize : Nat), 0 < batchSize →
      (bulkLoop results receipts batchSize 0).delaysAfter =
        List.range' 1 ((bulkLoop results receipts batchSize 0).sentBatches.length - 1) := by
    intro results receipts batchSize hb
    have h := bulkLoop_delaysAfter_range results receipts batchSize hb
      (receipts.length - 0) 0 rfl
    simpa using h
  constructor
  · intro results
    have h0 := bulkLoop_sentBatches_cons results receipts11 5 0 (by decide) (by decide)
    have h5 := bulkLoop_sentBatches_cons results receipts11 5 5 (by decide) (by decide)
    have h10 := bulkLoop_sentBatches_cons results receipts11 5 10 (by decide) (by decide)
    have h15 := bulkLoop_step_done results receipts11 5 15 (by decide)
    norm_num at h0 h5 h10
    constructor
    · rw [h0, h5, h10, h15]
      rfl
    · rw [hgen results receipts11 5 (by decide), h0, h5, h10, h15]
      rfl
  · exact hgen

/-- C8 witness: the general delay-placement statement instantiated at the
11-receipt, batch-size-5, all-successful run. -/
theorem c8_witness :
    (bulkLoop resultsAllOk receipts11 5 0).delaysAfter =
      List.range' 1 ((bulkLoop resultsAllOk receipts11 5 0).sentBatches.length - 1) :=
  c8_batch_chunking_delays.2 resultsAllOk receipts11 5 (by decide)

/-- C9: whenever the batch-create call for one chunk raises an API error,
exactly one aggregate error entry for that chunk enters the failure list
(a successful chunk contributes its response's `errors` list instead), all
chunks are still uploaded — their concatenation is the whole receipt list —
and the operation returns aggregate counts plus the itemized lists rather
than propagating the chunk's error. -/
theorem c9_chunk_failure_aggregated :
    ∀ results (receipts : List Json) (batchSize : Nat), 0 < batchSize →
      (bulkLoop results receipts batchSize 0).failed =
        failedEntriesSpec results 1
          ((bulkLoop results receipts batchSize 0).sentBatches.length) ∧
      ((bulkLoop results receipts batchSize 0).sentBatches).flatten = receipts ∧
      (bulk_upload_with_progress results receipts batchSize).failed_receipts =
        failedEntriesSpec results 1
          ((bulkLoop results receipts batchSize 0).sentBatches.length) ∧
      (bulk_upload_with_progress results receipts batchSize).total =
        receipts.length ∧
      (bulk_upload_with_progress results receipts batchSize).failed =
        (failedEntriesSpec results 1
          ((bulkLoop results receipts batchSize 0).sentBatches.length)).length := by
  intro results receipts batchSize hb
  have h1 : (bulkLoop results receipts batchSize 0).failed =
      failedEntriesSpec results 1
        ((bulkLoop results receipts batchSize 0).sentBatches.length) := by
    have h := bulkLoop_failed_spec results receipts batchSize hb
      (receipts.length - 0) 0 rfl
    simpa using h
  have h2 : ((bulkLoop results receipts batchSize 0).sentBatches).flatten = receipts := by
    have h := bulkLoop_join results receipts batchSize hb (receipts.length - 0) 0 rfl
    simpa using h
  exact ⟨h1, h2, h1, rfl, congrArg List.length h1⟩

/-- C9 witness: the theorem instantiated at the 11-receipt, batch-size-5
run whose second batch call fails. -/
theorem c9_witness :
    (bulkLoop resultsFail2 receipts11 5 0).failed =
      failedEntriesSpec resultsFail2 1
        ((bulkLoop resultsFail2 receipts11 5 0).sentBatches.length) ∧
    ((bulkLoop resultsFail2 receipts11 5 0).sentBatches).flatten = receipts11 ∧
    (bulk_upload_with_progress resultsFail2 receipts11 5).failed_receipts =
      failedEntriesSpec resultsFail2 1
        ((bulkLoop resultsFail2 receipts11 5 0).sentBatches.length) ∧
    (bulk_upload_with_progress resultsFail2 receipts11 5).total =
      receipts11.length ∧
    (bulk_upload_with_progress resultsFail2 receipts11 5).failed =
      (failedEntriesSpec resultsFail2 1
        ((bulkLoop resultsFail2 receipts11 5 0).sentBatches.length)).length :=
  c9_chunk_failure_aggregated resultsFail2 receipts11 5 (by decide)
